import Mathlib

/-!
Verification development for the layer8 interceptor network core.

The Rust sources are shallowly embedded: pure computations become Lean
functions, the cooperative-async control flow (retry loops, background
tasks, the rotation loop in `fetch`) becomes explicit state passing over
scripts of externally supplied outcomes (transport results, init-tunnel
results), and fallible code returns `Option`/`Except`-style results.
Machine integers that matter are modelled as `Nat`/`Int` with explicit
bounds where overflow could matter; the `f64` blob indices used by the
form-data streamer are modelled as `Int` (all values involved are exact
integers far below 2^53, so `f64` arithmetic on them is exact).

External black boxes (the AEAD primitive, the HTTP transport, the
browser's host objects) are modelled at their interfaces, exactly as the
specification declares them out of scope.
-/

namespace Layer8

/-- Bytes are modelled as natural numbers below 256. -/
abbrev Bytes := List Nat

/-- UTF-8 bytes of an ASCII string (all strings involved are ASCII, where
each byte is the character code). -/
def strBytes (s : String) : Bytes := s.data.map Char.toNat

/-- Number of (possibly overlapping) occurrences of the nonempty pattern
`pat` inside `l`: one per position of `l` at which `pat` is a prefix of the
remaining suffix. -/
def countOccs (pat : Bytes) : Bytes → Nat
  | [] => 0
  | a :: rest => (if pat.isPrefixOf (a :: rest) then 1 else 0) + countOccs pat rest

theorem countOccs_cons_of_head_ne (c : Nat) (p : Bytes) (a : Nat) (l : Bytes)
    (hne : c ≠ a) : countOccs (c :: p) (a :: l) = countOccs (c :: p) l := by
  simp [countOccs, List.isPrefixOf, hne]

theorem countOccs_replicate_append (c : Nat) (p : Bytes) (a : Nat) (hne : c ≠ a)
    (n : Nat) (t : Bytes) :
    countOccs (c :: p) (List.replicate n a ++ t) = countOccs (c :: p) t := by
  induction n with
  | zero => simp
  | succ m ih =>
    rw [List.replicate_succ, List.cons_append, countOccs_cons_of_head_ne c p a _ hne, ih]

/-! ## Constants (src/src/constants.rs) -/

def FETCH_RETRY_SLEEP_DELAY : Nat := 50
def INIT_TUNNEL_RETRY_SLEEP_DELAY : Nat := 1000
def FETCH_RETRY_ATTEMPTS : Nat := 3
def INIT_TUNNEL_RETRY_ATTEMPTS : Nat := 3

/-! ## JSON values

`serde_json::Value`, restricted to what this program produces and
consumes: the numbers appearing in this development (HTTP statuses and
byte values) are nonnegative integers, so `num` carries a `Nat`. -/

inductive Json where
  | null
  | bool (b : Bool)
  | num (n : Nat)
  | str (s : String)
  | arr (xs : List Json)
  | obj (fields : List (String × Json))

/-- JSON escaping of a single character, as performed by
`serde_json::to_string` on string contents. -/
def escapeJsonChar (c : Char) : String :=
  if c = '"' then "\\\""
  else if c = '\\' then "\\\\"
  else if c = Char.ofNat 8 then "\\b"
  else if c = Char.ofNat 12 then "\\f"
  else if c = Char.ofNat 10 then "\\n"
  else if c = Char.ofNat 13 then "\\r"
  else if c = Char.ofNat 9 then "\\t"
  else if c.toNat < 32 then
    "\\u00" ++ String.singleton (Nat.digitChar (c.toNat / 16)) ++
      String.singleton (Nat.digitChar (c.toNat % 16))
  else String.singleton c

def escapeJsonString (s : String) : String := String.join (s.data.map escapeJsonChar)

mutual

/-- `serde_json::to_string` of a JSON value (compact form). -/
def Json.render : Json → String
  | .null => "null"
  | .bool true => "true"
  | .bool false => "false"
  | .num n => toString n
  | .str s => "\"" ++ escapeJsonString s ++ "\""
  | .arr xs => "[" ++ Json.renderArray xs ++ "]"
  | .obj kvs => "\x7b" ++ Json.renderMembers kvs ++ "\x7d"

def Json.renderArray : List Json → String
  | [] => ""
  | [x] => Json.render x
  | x :: y :: xs => Json.render x ++ "," ++ Json.renderArray (y :: xs)

def Json.renderMembers : List (String × Json) → String
  | [] => ""
  | [kv] => "\"" ++ escapeJsonString kv.1 ++ "\":" ++ Json.render kv.2
  | kv :: kv2 :: rest =>
      "\"" ++ escapeJsonString kv.1 ++ "\":" ++ Json.render kv.2 ++ "," ++
        Json.renderMembers (kv2 :: rest)

end

/-! ## Tunnel initializer (src/src/init_tunnel.rs)

`init_tunnel` is driven by an `HttpCaller`; each send attempt either fails
at the transport level or yields a response body. A delivered body is
modelled as the `Json` value the bytes parse to, or `none` when the bytes
are not a JSON document at all (shape mismatches of a well-formed document
are covered by `decodeInitTunnelResponse` returning `none`). -/

inductive TransportResult where
  | failure
  | response (body : Option Json)

/-- The JSON shape `InitTunnelResponse` expected from the init-tunnel
endpoint, with the serde renames `jwt1`/`jwt2`/`public_key`. -/
structure InitTunnelResponse where
  ephemeral_public_key : List Nat
  t_b_hash : List Nat
  int_rp_jwt : String
  int_fp_jwt : String
  server_id : String
  static_public_key : List Nat
  deriving DecidableEq, Repr

def jLookup (fields : List (String × Json)) (k : String) : Option Json :=
  (fields.find? (fun kv => kv.1 = k)).map (fun kv => kv.2)

def decodeJsonStr : Json → Option String
  | .str s => some s
  | _ => none

def decodeJsonByte : Json → Option Nat
  | .num n => if n < 256 then some n else none
  | _ => none

def decodeJsonByteList : List Json → Option (List Nat)
  | [] => some []
  | j :: rest => do
      let b ← decodeJsonByte j
      let t ← decodeJsonByteList rest
      pure (b :: t)

def decodeJsonBytes : Json → Option (List Nat)
  | .arr xs => decodeJsonByteList xs
  | _ => none

/-- `serde_json::from_slice::<InitTunnelResponse>`: decodes the fields
`ephemeral_public_key`, `t_b_hash`, `jwt1` (into `int_rp_jwt`), `jwt2`
(into `int_fp_jwt`), `server_id` and `public_key` (into the static public
key) from a JSON object; unknown fields are ignored (serde default). -/
def decodeInitTunnelResponse (j : Json) : Option InitTunnelResponse :=
  match j with
  | .obj fields => do
      let epk ← jLookup fields "ephemeral_public_key" >>= decodeJsonBytes
      let tbh ← jLookup fields "t_b_hash" >>= decodeJsonBytes
      let jwt1 ← jLookup fields "jwt1" >>= decodeJsonStr
      let jwt2 ← jLookup fields "jwt2" >>= decodeJsonStr
      let sid ← jLookup fields "server_id" >>= decodeJsonStr
      let spk ← jLookup fields "public_key" >>= decodeJsonBytes
      pure ⟨epk, tbh, jwt1, jwt2, sid, spk⟩
  | _ => none

/-- Observable events of one `init_tunnel` run: an HTTP send attempt with
its headers, or a cooperative sleep (milliseconds). -/
inductive InitEvent where
  | send (retryCount : Nat) (headers : List (String × String))
  | sleep (ms : Nat)
  deriving DecidableEq, Repr

/-- Headers attached to the attempt numbered `n` (1-based), from the
`reqwest` builder in `init_tunnel`. -/
def initAttemptHeaders (n : Nat) : List (String × String) :=
  [("Content-Length", "application/json"), ("Retry-count", toString n)]

/-- Result of `init_tunnel`. `panicked` models `expect_throw`: a thrown JS
exception that is NOT a returned `Err` value and escapes the caller. -/
inductive InitTunnelOutcome where
  | ok (int_rp_jwt int_fp_jwt : String)
  | err (msg : String)
  | panicked (msg : String)
  deriving DecidableEq, Repr

/-- The retry loop of `init_tunnel` (step 2): `attempt` is the value of
`retry_attempt` before the increment at the top of the loop body, `fuel`
bounds the remaining iterations (`INIT_TUNNEL_RETRY_ATTEMPTS` from the
start). Returns the emitted events and either the first delivered body or
the exhaustion error. -/
def initTunnelLoop (script : Nat → TransportResult) (attempt : Nat) :
    Nat → List InitEvent × Except String (Option Json)
  | 0 => ([], .error "Failed to initialize tunnel: out of fuel")
  | fuel + 1 =>
    let n := attempt + 1
    match script n with
    | .response body => ([.send n (initAttemptHeaders n)], .ok body)
    | .failure =>
        if n ≥ INIT_TUNNEL_RETRY_ATTEMPTS then
          ([.send n (initAttemptHeaders n)],
            .error ("Failed to initialize tunnel after " ++ toString n ++ " attempts"))
        else
          let (evs, res) := initTunnelLoop script n fuel
          (.send n (initAttemptHeaders n) :: .sleep INIT_TUNNEL_RETRY_SLEEP_DELAY :: evs, res)

/-- `init_tunnel`: run the retry loop, then parse the response body
(`expect_throw` on a shape mismatch, modelled as `panicked`), then the
nTor handshake verification. The nTor construction is external (spec
section 6), so the verification outcome is the parameter `handshakeOk`. -/
def init_tunnel (script : Nat → TransportResult) (handshakeOk : Bool) :
    List InitEvent × InitTunnelOutcome :=
  let (evs, res) := initTunnelLoop script 0 INIT_TUNNEL_RETRY_ATTEMPTS
  (evs,
    match res with
    | .error msg => .err msg
    | .ok body =>
        match body >>= decodeInitTunnelResponse with
        | none => .panicked "Failed to deserialize response body to InitTunnelResponse"
        | some r =>
            if handshakeOk then .ok r.int_rp_jwt r.int_fp_jwt
            else .err "Failed to create nTor Client")

/-- The per-provider registry entry (src/src/types/network_state.rs).
`OPEN` carries an epoch counter in place of the session payload, so that
distinct sessions produce distinct entries. -/
inductive NetworkState where
  | CONNECTING
  | OPEN (epoch : Nat)
  | ERRORED (msg : String)
  deriving DecidableEq, Repr

/-- Registry write performed by the background task of
`init_encrypted_tunnels` once `init_tunnel` finishes: `set_open` on `Ok`,
`set_errored` on `Err`; a thrown exception kills the spawned task before
either write, so no write happens. -/
def backgroundTaskWrite (outcome : InitTunnelOutcome) : Option NetworkState :=
  match outcome with
  | .ok _ _ => some (.OPEN 0)
  | .err msg => some (.ERRORED msg)
  | .panicked _ => none

/-- Final registry entry for one provider after `init_encrypted_tunnels`
marked it CONNECTING and its background task ran to completion (or died). -/
def initEncryptedTunnelFinalState (script : Nat → TransportResult) (handshakeOk : Bool) :
    NetworkState :=
  match backgroundTaskWrite (init_tunnel script handshakeOk).2 with
  | some s => s
  | none => .CONNECTING

/-- The event trace `init_tunnel` produces when the first `m - 1` attempts
fail and a result is reached at attempt `m`: sends labelled `1..m` with a
1000 ms sleep between consecutive sends. -/
def expectedInitTrace : Nat → List InitEvent
  | 0 => []
  | 1 => [.send 1 (initAttemptHeaders 1)]
  | m + 1 => expectedInitTrace m ++
      [.sleep INIT_TUNNEL_RETRY_SLEEP_DELAY, .send (m + 1) (initAttemptHeaders (m + 1))]

/-- Number of send attempts `init_tunnel` performs for a given transport
script: the first attempt among 1..3 that is not a transport failure, or 3
when all three fail. -/
def TransportResult.isFailure : TransportResult → Bool
  | .failure => true
  | _ => false

def numInitAttempts (script : Nat → TransportResult) : Nat :=
  if (script 1).isFailure then (if (script 2).isFailure then 3 else 2) else 1

/-- A transport script whose attempts all deliver a body that is valid
JSON but not of the `InitTunnelResponse` shape. -/
def c4BadScript : Nat → TransportResult := fun _ => .response (some (Json.str "oops"))

/-- Claim C4: when the init-tunnel response body cannot be decoded into
the expected JSON shape, `init_tunnel` does NOT fail with an error result:
it `expect_throw`s (a thrown exception), so the background task spawned by
`init_encrypted_tunnels` dies before `set_errored_network_state` and the
provider entry stays CONNECTING instead of becoming ERRORED. This theorem
evaluates the model at the failing input. -/
theorem c4_malformed_init_body_panics :
    (init_tunnel c4BadScript true).2 =
      .panicked "Failed to deserialize response body to InitTunnelResponse" ∧
    initEncryptedTunnelFinalState c4BadScript true = .CONNECTING := by
  exact ⟨rfl, rfl⟩

/-- Claim C5: for every transport script, `init_tunnel` makes at most
`INIT_TUNNEL_RETRY_ATTEMPTS` (3) send attempts; attempt `n` (1-based)
carries the headers `Content-Length: application/json` and
`Retry-count: n`; a 1000 ms sleep separates consecutive failed attempts
(and only those); after the third consecutive transport failure it returns
an error without issuing a fourth send. -/
theorem c5_init_tunnel_retry_policy (script : Nat → TransportResult) (hs : Bool) :
    (init_tunnel script hs).1 = expectedInitTrace (numInitAttempts script) ∧
    numInitAttempts script ≤ INIT_TUNNEL_RETRY_ATTEMPTS ∧
    (script 1 = .failure → script 2 = .failure → script 3 = .failure →
      (init_tunnel script hs).2 = .err "Failed to initialize tunnel after 3 attempts") := by
  rcases h1 : script 1 with _ | b1
  · rcases h2 : script 2 with _ | b2
    · rcases h3 : script 3 with _ | b3
      · refine ⟨?_, ?_, ?_⟩ <;>
          simp [init_tunnel, initTunnelLoop, numInitAttempts, expectedInitTrace,
            INIT_TUNNEL_RETRY_ATTEMPTS, INIT_TUNNEL_RETRY_SLEEP_DELAY, h1, h2, h3,
            TransportResult.isFailure] <;> try decide
      · refine ⟨?_, ?_, ?_⟩ <;>
          simp [init_tunnel, initTunnelLoop, numInitAttempts, expectedInitTrace,
            INIT_TUNNEL_RETRY_ATTEMPTS, INIT_TUNNEL_RETRY_SLEEP_DELAY, h1, h2, h3,
            TransportResult.isFailure]
    · refine ⟨?_, ?_, ?_⟩ <;>
        simp [init_tunnel, initTunnelLoop, numInitAttempts, expectedInitTrace,
          INIT_TUNNEL_RETRY_ATTEMPTS, INIT_TUNNEL_RETRY_SLEEP_DELAY, h1, h2,
          TransportResult.isFailure]
  · refine ⟨?_, ?_, ?_⟩ <;>
      simp [init_tunnel, initTunnelLoop, numInitAttempts, expectedInitTrace,
        INIT_TUNNEL_RETRY_ATTEMPTS, INIT_TUNNEL_RETRY_SLEEP_DELAY, h1,
        TransportResult.isFailure]

/-- Witness for C5: at the always-failing transport script, the trace is
exactly send 1, sleep, send 2, sleep, send 3 and the outcome is the
exhaustion error. -/
theorem c5_init_tunnel_retry_policy_witness :
    (init_tunnel (fun _ => TransportResult.failure) true).2 =
      .err "Failed to initialize tunnel after 3 attempts" ∧
    (init_tunnel (fun _ => TransportResult.failure) true).1 = expectedInitTrace 3 := by
  exact ⟨(c5_init_tunnel_retry_policy (fun _ => TransportResult.failure) true).2.2
      rfl rfl rfl,
    (c5_init_tunnel_retry_policy (fun _ => TransportResult.failure) true).1⟩

/-! ## The fetch rotation loop (src/src/fetch.rs, src/src/types/request.rs)

`fetch` reads the registry entry (which must be OPEN), builds the request,
then loops: `l8_send(state, attempts > 0)` issues one POST to
`${forward_proxy}/proxy`; on `Reinitialize` it runs `init_tunnel` and
overwrites the entry with `set_open_network_state`. The outcome of each
POST and of each rotation is externally supplied as a script; the registry
is modelled by the log of entries successively stored for the provider
(`history`), which is exactly the sequence of states `get` can observe. -/

/-- Externally observable outcome of one POST to `/proxy`: delivered
(2xx/3xx with decodable body), transport error, or HTTP status ≥ 400. -/
inductive AttemptOutcome where
  | success
  | transportError
  | badStatus
  deriving DecidableEq, Repr

/-- `NetworkStateResponse` (src/src/types/network_state.rs). -/
inductive NetworkStateResponse where
  | ProviderResponse
  | ProxyError (msg : String)
  | Reinit
  deriving DecidableEq, Repr

/-- `L8RequestObject::l8_send` — one POST to `/proxy`, reduced to its
control flow on the attempt outcome. `Except` models the `Result`: on a
transport error with `reinitialize_attempt` false, the function returns
`Err`; on status ≥ 400 with `reinitialize_attempt` false it returns
`Ok(ProxyError ...)`. -/
def l8_send (outcome : AttemptOutcome) (reinitialize_attempt : Bool) :
    Except String NetworkStateResponse :=
  match outcome with
  | .success => .ok .ProviderResponse
  | .transportError =>
      if reinitialize_attempt then .ok .Reinit
      else .error "Failed to send request"
  | .badStatus =>
      if reinitialize_attempt then .ok .Reinit
      else .ok (.ProxyError "Unexpected response from the proxy server")

/-- Result of a `fetch` call: a delivered response or a JS error. -/
inductive FetchResult where
  | response
  | jsError (msg : String)
  deriving DecidableEq, Repr

/-- One `fetch` run: the final result, the rotation-allowed flag of each
`/proxy` POST issued (in order), and the provider's registry write log. -/
structure FetchSim where
  result : FetchResult
  posts : List Bool
  history : List NetworkState
  deriving DecidableEq, Repr

/-- The loop of `fetch`, structurally recursive on `attempts` (the loop
re-enters only on `Reinitialize`, which `l8_send` can return only when the
`attempts > 0` flag was passed; the code then decrements `attempts`).
`proxyOutcome k` is the outcome of POST number `k` (0-based), `initOutcome
k` the success of rotation number `k`, `hist` the registry write log. On a
successful rotation the code overwrites the entry with a fresh OPEN state
(`set_open_network_state`) without passing through CONNECTING; on a failed
rotation the `?` on `init_tunnel` returns the error with no registry
write. -/
def fetchLoop (proxyOutcome : Nat → AttemptOutcome) (initOutcome : Nat → Bool)
    (postIdx rotIdx : Nat) (hist : List NetworkState) : Nat → FetchSim
  | 0 =>
    match l8_send (proxyOutcome postIdx) false with
    | .error msg => { result := .jsError msg, posts := [false], history := hist }
    | .ok .ProviderResponse => { result := .response, posts := [false], history := hist }
    | .ok (.ProxyError msg) => { result := .jsError msg, posts := [false], history := hist }
    | .ok .Reinit =>
        -- unreachable: `l8_send _ false` never returns `Reinitialize`
        { result := .jsError "unreachable", posts := [false], history := hist }
  | attempts + 1 =>
    match l8_send (proxyOutcome postIdx) true with
    | .error msg => { result := .jsError msg, posts := [true], history := hist }
    | .ok .ProviderResponse => { result := .response, posts := [true], history := hist }
    | .ok (.ProxyError msg) => { result := .jsError msg, posts := [true], history := hist }
    | .ok .Reinit =>
        if initOutcome rotIdx then
          let hist1 := hist ++ [NetworkState.OPEN (rotIdx + 1)]
          let rest := fetchLoop proxyOutcome initOutcome (postIdx + 1) (rotIdx + 1)
            hist1 attempts
          { rest with posts := true :: rest.posts }
        else
          { result := .jsError "init_tunnel failed", posts := [true], history := hist }

/-- A `fetch` call against a provider whose registry write log so far is
`hist` (its last entry must be OPEN for the call to proceed); starts the
loop with `attempts = FETCH_RETRY_ATTEMPTS`. -/
def fetchSim (proxyOutcome : Nat → AttemptOutcome) (initOutcome : Nat → Bool)
    (hist : List NetworkState) : FetchSim :=
  fetchLoop proxyOutcome initOutcome 0 0 hist FETCH_RETRY_ATTEMPTS

/-- The observed-state pattern claimed for the registry:
`[CONNECTING, OPEN|ERRORED]*` — CONNECTING strictly alternating with a
settled state, starting at CONNECTING. `expectSettled` is true when the
next state must be OPEN or ERRORED. -/
def validSeqAux : Bool → List NetworkState → Bool
  | _, [] => true
  | false, .CONNECTING :: rest => validSeqAux true rest
  | true, .OPEN _ :: rest => validSeqAux false rest
  | true, .ERRORED _ :: rest => validSeqAux false rest
  | _, _ => false

def validSeq (l : List NetworkState) : Bool := validSeqAux false l

theorem fetchLoop_posts_shape (p : Nat → AttemptOutcome) (i : Nat → Bool) :
    ∀ (fuel pi ri : Nat) (h : List NetworkState),
    ∃ k last, (fetchLoop p i pi ri h fuel).posts = List.replicate k true ++ [last] ∧
      k ≤ fuel ∧ (k = fuel → last = false) := by
  intro fuel
  induction fuel with
  | zero =>
    intro pi ri h
    refine ⟨0, false, ?_, Nat.le_refl 0, fun _ => rfl⟩
    cases hp : p pi <;> simp [fetchLoop, l8_send, hp]
  | succ n ih =>
    intro pi ri h
    cases hp : p pi with
    | success =>
        exact ⟨0, true, by simp [fetchLoop, l8_send, hp], Nat.zero_le _,
          fun he => absurd he (by omega)⟩
    | transportError =>
        by_cases hi : i ri
        · obtain ⟨k, last, hpost, hk, hlast⟩ :=
            ih (pi + 1) (ri + 1) (h ++ [NetworkState.OPEN (ri + 1)])
          refine ⟨k + 1, last, ?_, by omega, fun he => hlast (by omega)⟩
          simp [fetchLoop, l8_send, hp, hi, hpost, List.replicate_succ]
        · exact ⟨0, true, by simp [fetchLoop, l8_send, hp, hi], Nat.zero_le _,
            fun he => absurd he (by omega)⟩
    | badStatus =>
        by_cases hi : i ri
        · obtain ⟨k, last, hpost, hk, hlast⟩ :=
            ih (pi + 1) (ri + 1) (h ++ [NetworkState.OPEN (ri + 1)])
          refine ⟨k + 1, last, ?_, by omega, fun he => hlast (by omega)⟩
          simp [fetchLoop, l8_send, hp, hi, hpost, List.replicate_succ]
        · exact ⟨0, true, by simp [fetchLoop, l8_send, hp, hi], Nat.zero_le _,
            fun he => absurd he (by omega)⟩

theorem fetchLoop_history_shape (p : Nat → AttemptOutcome) (i : Nat → Bool) :
    ∀ (fuel pi ri : Nat) (h : List NetworkState),
    ∃ k, k ≤ fuel ∧
      (fetchLoop p i pi ri h fuel).history =
        h ++ (List.range k).map (fun j => NetworkState.OPEN (ri + j + 1)) := by
  intro fuel
  induction fuel with
  | zero =>
    intro pi ri h
    exact ⟨0, Nat.le_refl 0, by cases hp : p pi <;> simp [fetchLoop, l8_send, hp]⟩
  | succ n ih =>
    intro pi ri h
    cases hp : p pi with
    | success => exact ⟨0, Nat.zero_le _, by simp [fetchLoop, l8_send, hp]⟩
    | transportError =>
        by_cases hi : i ri
        · obtain ⟨k, hk, hh⟩ := ih (pi + 1) (ri + 1) (h ++ [NetworkState.OPEN (ri + 1)])
          refine ⟨k + 1, by omega, ?_⟩
          simp only [fetchLoop, l8_send, hp, hi, if_true]
          rw [hh, List.append_assoc, List.range_succ_eq_map]
          simp only [List.map_cons, List.map_map, List.singleton_append, Nat.add_zero]
          have hfun : ((fun j => NetworkState.OPEN (ri + j + 1)) ∘ Nat.succ) =
              (fun j => NetworkState.OPEN (ri + 1 + j + 1)) := by
            funext j
            simp only [Function.comp_apply]
            congr 1
            omega
          rw [hfun]
        · exact ⟨0, Nat.zero_le _, by simp [fetchLoop, l8_send, hp, hi]⟩
    | badStatus =>
        by_cases hi : i ri
        · obtain ⟨k, hk, hh⟩ := ih (pi + 1) (ri + 1) (h ++ [NetworkState.OPEN (ri + 1)])
          refine ⟨k + 1, by omega, ?_⟩
          simp only [fetchLoop, l8_send, hp, hi, if_true]
          rw [hh, List.append_assoc, List.range_succ_eq_map]
          simp only [List.map_cons, List.map_map, List.singleton_append, Nat.add_zero]
          have hfun : ((fun j => NetworkState.OPEN (ri + j + 1)) ∘ Nat.succ) =
              (fun j => NetworkState.OPEN (ri + 1 + j + 1)) := by
            funext j
            simp only [Function.comp_apply]
            congr 1
            omega
          rw [hfun]
        · exact ⟨0, Nat.zero_le _, by simp [fetchLoop, l8_send, hp, hi]⟩

/-- Claim C1 as stated is false: with a transport that fails every
`/proxy` POST and rotations that all succeed, a single `fetch` call issues
4 POSTs to `${forward_proxy}/proxy`, exceeding `FETCH_RETRY_ATTEMPTS`
(3). -/
theorem c1_four_posts_counterexample :
    ¬ ((fetchSim (fun _ => AttemptOutcome.transportError) (fun _ => true)
        [NetworkState.CONNECTING, NetworkState.OPEN 0]).posts.length ≤
      FETCH_RETRY_ATTEMPTS) := by decide

/-- Claim C1, amended: for every fetch call the number of POST requests
issued to `${forward_proxy}/proxy` is at most `FETCH_RETRY_ATTEMPTS + 1`
(4): the first three attempts are issued with rotation allowed, and the
fourth attempt, when issued, is issued with rotation disallowed so it
cannot trigger a session rotation. -/
theorem c1_fetch_proxy_posts_bounded (p : Nat → AttemptOutcome) (i : Nat → Bool)
    (hist : List NetworkState) :
    (fetchSim p i hist).posts.length ≤ FETCH_RETRY_ATTEMPTS + 1 ∧
    (∀ b ∈ (fetchSim p i hist).posts.dropLast, b = true) ∧
    ((fetchSim p i hist).posts.length = FETCH_RETRY_ATTEMPTS + 1 →
      (fetchSim p i hist).posts.getLast? = some false) := by
  obtain ⟨k, last, hpost, hk, hlast⟩ :=
    fetchLoop_posts_shape p i FETCH_RETRY_ATTEMPTS 0 0 hist
  rw [show fetchSim p i hist = fetchLoop p i 0 0 hist FETCH_RETRY_ATTEMPTS from rfl]
  refine ⟨?_, ?_, ?_⟩
  · have h3 : FETCH_RETRY_ATTEMPTS = 3 := rfl
    rw [hpost]
    rw [h3] at hk
    simp only [List.length_append, List.length_replicate, List.length_cons,
      List.length_nil, h3]
    omega
  · intro b hb
    rw [hpost, List.dropLast_concat] at hb
    exact List.eq_of_mem_replicate hb
  · intro hlen
    have h3 : FETCH_RETRY_ATTEMPTS = 3 := rfl
    rw [hpost, List.getLast?_concat]
    rw [hpost] at hlen
    rw [h3] at hk
    simp only [List.length_append, List.length_replicate, List.length_cons,
      List.length_nil, h3] at hlen
    rw [hlast (by omega)]

/-- Witness for C1: at the always-failing script the bound 4 is attained
and the last POST carries the rotation-disallowed flag. -/
theorem c1_fetch_proxy_posts_bounded_witness :
    (fetchSim (fun _ => AttemptOutcome.transportError) (fun _ => true)
        [NetworkState.CONNECTING, NetworkState.OPEN 0]).posts.length ≤
      FETCH_RETRY_ATTEMPTS + 1 ∧
    (fetchSim (fun _ => AttemptOutcome.transportError) (fun _ => true)
        [NetworkState.CONNECTING, NetworkState.OPEN 0]).posts.getLast? = some false := by
  refine ⟨(c1_fetch_proxy_posts_bounded _ _ _).1, ?_⟩
  exact (c1_fetch_proxy_posts_bounded (fun _ => AttemptOutcome.transportError)
    (fun _ => true) [NetworkState.CONNECTING, NetworkState.OPEN 0]).2.2 (by decide)

/-- Claim C2 as stated is false: a rotation triggered by a failing fetch
overwrites the provider's OPEN entry directly with a new OPEN entry, never
re-entering CONNECTING (the write log gains a second consecutive OPEN, so
the observed sequence leaves the `[CONNECTING, OPEN|ERRORED]*` pattern);
and when the rotation's tunnel initialization fails, the fetch returns the
error while the registry log is left unchanged — no ERRORED entry is
stored. -/
theorem c2_rotation_skips_connecting_counterexample :
    validSeq [NetworkState.CONNECTING, NetworkState.OPEN 0] = true ∧
    (fetchSim (fun n => if n = 0 then AttemptOutcome.transportError else .success)
        (fun _ => true) [NetworkState.CONNECTING, NetworkState.OPEN 0]).history =
      [NetworkState.CONNECTING, NetworkState.OPEN 0, NetworkState.OPEN 1] ∧
    validSeq (fetchSim (fun n => if n = 0 then AttemptOutcome.transportError else .success)
        (fun _ => true) [NetworkState.CONNECTING, NetworkState.OPEN 0]).history = false ∧
    (fetchSim (fun _ => AttemptOutcome.transportError) (fun _ => false)
        [NetworkState.CONNECTING, NetworkState.OPEN 0]).result =
      .jsError "init_tunnel failed" ∧
    (fetchSim (fun _ => AttemptOutcome.transportError) (fun _ => false)
        [NetworkState.CONNECTING, NetworkState.OPEN 0]).history =
      [NetworkState.CONNECTING, NetworkState.OPEN 0] := by decide

/-- Claim C2, amended: during a `fetch` call the only registry writes are
the OPEN overwrites performed by successful rotations (at most
`FETCH_RETRY_ATTEMPTS` of them); a rotation never stores CONNECTING, and
when the rotation's tunnel initialization fails the call returns that
error with no registry write at all, leaving the previous entry (not
ERRORED) in place. -/
theorem c2_rotation_writes (p : Nat → AttemptOutcome) (i : Nat → Bool)
    (h : List NetworkState) :
    (∃ k, k ≤ FETCH_RETRY_ATTEMPTS ∧
      (fetchSim p i h).history =
        h ++ (List.range k).map (fun j => NetworkState.OPEN (j + 1))) ∧
    (fetchSim p (fun _ => false) h).history = h ∧
    ((p 0 = .transportError ∨ p 0 = .badStatus) →
      (fetchSim p (fun _ => false) h).result = .jsError "init_tunnel failed") := by
  refine ⟨?_, ?_, ?_⟩
  · obtain ⟨k, hk, hh⟩ := fetchLoop_history_shape p i FETCH_RETRY_ATTEMPTS 0 0 h
    exact ⟨k, hk, by simpa using hh⟩
  · cases hp : p 0 <;>
      simp [fetchSim, fetchLoop, l8_send, hp, FETCH_RETRY_ATTEMPTS]
  · rintro (hp | hp) <;>
      simp [fetchSim, fetchLoop, l8_send, hp, FETCH_RETRY_ATTEMPTS]

/-- Witness for C2 (amended): concrete instantiation at a failing first
POST with failing rotation, and at an all-successful script. -/
theorem c2_rotation_writes_witness :
    (∃ k, k ≤ FETCH_RETRY_ATTEMPTS ∧
      (fetchSim (fun _ => AttemptOutcome.success) (fun _ => true)
          [NetworkState.CONNECTING, NetworkState.OPEN 0]).history =
        [NetworkState.CONNECTING, NetworkState.OPEN 0] ++
          (List.range k).map (fun j => NetworkState.OPEN (j + 1))) ∧
    (fetchSim (fun _ => AttemptOutcome.transportError) (fun _ => false)
        [NetworkState.CONNECTING, NetworkState.OPEN 0]).result =
      .jsError "init_tunnel failed" :=
  ⟨(c2_rotation_writes (fun _ => AttemptOutcome.success) (fun _ => true)
      [NetworkState.CONNECTING, NetworkState.OPEN 0]).1,
    (c2_rotation_writes (fun _ => AttemptOutcome.transportError) (fun _ => false)
      [NetworkState.CONNECTING, NetworkState.OPEN 0]).2.2 (Or.inl rfl)⟩

/-! ## L8Response reconstruction (src/src/types/response.rs,
src/src/types/request.rs `handle_response`)

The in-process round trip of an `L8ResponseObject` is: serialize to JSON
bytes, seal with `wasm_encrypt`, open with `wasm_decrypt`, parse with
`serde_json::from_slice::<L8ResponseObject>`, then rebuild a host
`web_sys::Response`. The AEAD pair and the JSON byte codec are external
black boxes (spec sections 1 and 6) whose open/parse inverts seal/render;
their composition on the wire is therefore the identity on JSON values,
and the round trip is modelled at the JSON-value level as
`decodeL8ResponseJson ∘ encodeL8ResponseJson` followed by the
reconstruction. -/

/-- `L8ResponseObject` (src/src/types/response.rs): the derived serde
field set, headers being a map from name to arbitrary JSON value. -/
structure L8ResponseObject where
  status : Nat
  status_text : String
  headers : List (String × Json)
  body : List Nat
  ok : Bool
  url : String
  redirected : Bool

/-- The JSON document an `L8ResponseObject` is carried as (the serde field
names, `status` a u16, `body` a byte array). -/
def encodeL8ResponseJson (r : L8ResponseObject) : Json :=
  .obj [("status", .num r.status), ("status_text", .str r.status_text),
    ("headers", .obj r.headers), ("body", .arr (r.body.map Json.num)),
    ("ok", .bool r.ok), ("url", .str r.url), ("redirected", .bool r.redirected)]

def decodeJsonBool : Json → Option Bool
  | .bool b => some b
  | _ => none

def decodeJsonU16 : Json → Option Nat
  | .num n => if n < 65536 then some n else none
  | _ => none

def decodeJsonObjFields : Json → Option (List (String × Json))
  | .obj kvs => some kvs
  | _ => none

/-- `serde_json::from_slice::<L8ResponseObject>` at the JSON-value level. -/
def decodeL8ResponseJson (j : Json) : Option L8ResponseObject :=
  match j with
  | .obj fields => do
      let status ← jLookup fields "status" >>= decodeJsonU16
      let statusText ← jLookup fields "status_text" >>= decodeJsonStr
      let headers ← jLookup fields "headers" >>= decodeJsonObjFields
      let body ← jLookup fields "body" >>= decodeJsonBytes
      let ok ← jLookup fields "ok" >>= decodeJsonBool
      let url ← jLookup fields "url" >>= decodeJsonStr
      let redirected ← jLookup fields "redirected" >>= decodeJsonBool
      pure ⟨status, statusText, headers, body, ok, url, redirected⟩
  | _ => none

/-- The synthetic host `web_sys::Response` as observable by a caller:
status, status text, appended header pairs, body bytes. -/
structure JsResponse where
  status : Nat
  status_text : String
  headers : List (String × String)
  body : List Nat

/-- `reconstruct_js_response` (also the tail of
`L8RequestObject::handle_response`): copies status, status text and body,
and appends each header as `(key, serde_json::to_string(value))` — the
header VALUE is the JSON rendering of the stored JSON value. -/
def reconstruct_js_response (r : L8ResponseObject) : JsResponse :=
  { status := r.status, status_text := r.status_text,
    headers := r.headers.map (fun kv => (kv.1, Json.render kv.2)),
    body := r.body }

/-- The in-process round trip of claim C3: JSON-encode, seal+open
(identity composition of the external AEAD pair on the rendered bytes),
re-parse, reconstruct. -/
def l8ResponseRoundTrip (r : L8ResponseObject) : Option JsResponse :=
  (decodeL8ResponseJson (encodeL8ResponseJson r)).map reconstruct_js_response

theorem decodeJsonBytes_map_num (l : List Nat) (h : ∀ b ∈ l, b < 256) :
    decodeJsonBytes (.arr (l.map Json.num)) = some l := by
  induction l with
  | nil => rfl
  | cons a t ih =>
    have ha : a < 256 := h a (by simp)
    have ht := ih (fun b hb => h b (by simp [hb]))
    simp [decodeJsonBytes, decodeJsonByteList, decodeJsonByte, ha] at ht ⊢
    rw [ht]
    rfl

/-- Claim C3 as stated is false: for the `L8ResponseObject` with status
200, status text "OK", the single header `content-type ↦ "text/plain"`
(a JSON string) and body bytes `hi`, the reconstructed Response maps
`content-type` to the nine-byte string `"text/plain"` INCLUDING the JSON
quotes, which is not the original header value `text/plain`. -/
theorem c3_header_value_quoted_counterexample :
    l8ResponseRoundTrip
        { status := 200,
          status_text := "OK",
          headers := [("content-type", Json.str "text/plain")],
          body := [104, 105],
          ok := true,
          url := "",
          redirected := false } =
      some
        { status := 200,
          status_text := "OK",
          headers := [("content-type", "\"text/plain\"")],
          body := [104, 105] } ∧
    ("\"text/plain\"" : String) ≠ "text/plain" := by
  constructor
  · rfl
  · decide

/-- Claim C3, amended: the in-process round trip reproduces status,
status-text and body bytes exactly, and maps each header name to the JSON
serialization of its original value (so a JSON string value reappears
quoted) rather than to the value itself. -/
theorem c3_round_trip_amended (r : L8ResponseObject)
    (hstatus : r.status < 65536) (hbody : ∀ b ∈ r.body, b < 256) :
    decodeL8ResponseJson (encodeL8ResponseJson r) = some r ∧
    l8ResponseRoundTrip r = some
      { status := r.status,
        status_text := r.status_text,
        headers := r.headers.map (fun kv => (kv.1, Json.render kv.2)),
        body := r.body } := by
  have hdec : decodeL8ResponseJson (encodeL8ResponseJson r) = some r := by
    simp [decodeL8ResponseJson, encodeL8ResponseJson, jLookup, List.find?,
      decodeJsonU16, hstatus, decodeJsonStr, decodeJsonObjFields,
      decodeJsonBytes_map_num r.body hbody, decodeJsonBool]
  exact ⟨hdec, by simp [l8ResponseRoundTrip, hdec, reconstruct_js_response]⟩

/-- Witness for C3 (amended) at a concrete response value. -/
theorem c3_round_trip_amended_witness :
    l8ResponseRoundTrip
        { status := 404,
          status_text := "Not Found",
          headers := [("x-a", Json.num 7)],
          body := [0, 255],
          ok := false,
          url := "u",
          redirected := true } =
      some
        { status := 404,
          status_text := "Not Found",
          headers := [("x-a", "7")],
          body := [0, 255] } := by
  exact (c3_round_trip_amended
    { status := 404,
      status_text := "Not Found",
      headers := [("x-a", Json.num 7)],
      body := [0, 255],
      ok := false,
      url := "u",
      redirected := true }
    (by decide) (by decide)).2

/-! ## URL parsing (src/src/utils/mod.rs `get_base_url`/`get_uri`,
src/src/network_state.rs `base_url`)

Both functions delegate to `url::Url::parse`, the WHATWG URL parser.
The parser is modelled here for the hierarchical `scheme://` URLs this
program handles: the scheme and host are ASCII-lowercased, a port equal to
the scheme's default is dropped (`Url::port` returns `None` for it), an
empty path becomes `/`, and query/fragment are split off at `?`/`#`.
Percent-encoding, dot-segment removal, IDNA and IPv6 hosts are outside the
model (no claim depends on them; inputs using `[`/`]` are rejected). -/

theorem toNat_ofNat_valid (n : Nat) (h : n < 55296) : (Char.ofNat n).toNat = n := by
  unfold Char.ofNat
  rw [dif_pos (Or.inl h)]
  rfl

theorem toLower_toNat (c : Char) :
    (Char.toLower c).toNat = if 65 ≤ c.toNat ∧ c.toNat ≤ 90 then c.toNat + 32 else c.toNat := by
  simp only [Char.toLower, ge_iff_le]
  split
  · rename_i h
    rw [toNat_ofNat_valid _ (by omega)]
  · rfl

theorem toLower_not_upper (c : Char) :
    ¬(65 ≤ (Char.toLower c).toNat ∧ (Char.toLower c).toNat ≤ 90) := by
  rw [toLower_toNat]
  split <;> omega

theorem toLower_toNat_eq_low (c : Char) (t : Nat) (ht : t < 65)
    (h : (Char.toLower c).toNat = t) : c.toNat = t := by
  rw [toLower_toNat] at h
  split at h <;> omega

structure UrlModel where
  scheme : String
  host : String
  port : Option Nat
  path : String
  query : Option String
  fragment : Option String
  deriving DecidableEq, Repr

/-- Default ports the WHATWG parser (and hence `url::Url::port`)
normalizes away. -/
def defaultPort (scheme : String) : Option Nat :=
  if scheme = "http" then some 80
  else if scheme = "https" then some 443
  else if scheme = "ws" then some 80
  else if scheme = "wss" then some 443
  else if scheme = "ftp" then some 21
  else none

def isSchemeChar (c : Char) : Bool := c.isAlphanum || c = '+' || c = '-' || c = '.'

def digitsToNat (l : List Char) : Nat := l.foldl (fun acc c => acc * 10 + (c.toNat - 48)) 0

/-- Lowercased host from the authority's host-port characters: everything
before the first `:`, ASCII-lowercased. -/
def mkHost (hostport : List Char) : String :=
  ((hostport.takeWhile (fun c => c != ':')).map Char.toLower).asString

/-- Lowercased scheme. -/
def mkScheme (schemeCs : List Char) : String := (schemeCs.map Char.toLower).asString

/-- Port from the authority, after default-port normalization: `none` for
no port, an empty port, or a port equal to the scheme's default; parse
failure (`none` overall) on non-digits or ports above 65535. -/
def mkPort (scheme : String) (portPart : List Char) : Option (Option Nat) :=
  match portPart with
  | [] => some none
  | _ :: ps =>
      if ps.isEmpty then some none
      else if ps.all Char.isDigit then
        if digitsToNat ps > 65535 then none
        else if defaultPort scheme = some (digitsToNat ps) then some none
        else some (some (digitsToNat ps))
      else none

/-- Model of `url::Url::parse` for hierarchical URLs (see section
comment). -/
def parseUrl (s : String) : Option UrlModel :=
  let cs := s.data
  let schemeCs := cs.takeWhile (fun c => c != ':')
  match cs.drop schemeCs.length with
  | ':' :: '/' :: '/' :: r =>
    if schemeCs.isEmpty || !(schemeCs.all isSchemeChar) || !((schemeCs.headD 'a').isAlpha)
    then none
    else
      let scheme := mkScheme schemeCs
      let auth := r.takeWhile (fun c => c != '/' && c != '?' && c != '#')
      let after := r.drop auth.length
      let hostport := (auth.reverse.takeWhile (fun c => c != '@')).reverse
      if hostport.any (fun c => c = '[' || c = ']') then none
      else
        let hostCs := hostport.takeWhile (fun c => c != ':')
        if hostCs.isEmpty then none
        else
          match mkPort scheme (hostport.drop hostCs.length) with
          | none => none
          | some port =>
              let pathCs := after.takeWhile (fun c => c != '?' && c != '#')
              let path := if pathCs.isEmpty then "/" else pathCs.asString
              let qf := after.drop pathCs.length
              let qfr : Option String × Option String :=
                match qf with
                | '?' :: t =>
                    let qCs := t.takeWhile (fun c => c != '#')
                    (some qCs.asString,
                      match t.drop qCs.length with
                      | _ :: f => some f.asString
                      | [] => none)
                | '#' :: f => (none, some f.asString)
                | _ => (none, none)
              some { scheme := scheme, host := mkHost hostport, port := port,
                     path := path, query := qfr.1, fragment := qfr.2 }
  | _ => none

/-- The string `format!("{}://{}", scheme, host)` plus `:{port}` when a
port is present — the body of `get_base_url`. -/
def baseUrlString (u : UrlModel) : String :=
  match u.port with
  | some p => u.scheme ++ "://" ++ u.host ++ ":" ++ toString p
  | none => u.scheme ++ "://" ++ u.host

/-- `get_base_url` (src/src/utils/mod.rs lines 20-31; identical to
`base_url` in src/src/network_state.rs lines 127-138). -/
def get_base_url (url : String) : Option String := (parseUrl url).map baseUrlString

/-- `get_uri` (src/src/utils/mod.rs lines 33-42): path plus `?query` when
present, no fragment. -/
def get_uri (url : String) : Option String :=
  (parseUrl url).map (fun u =>
    u.path ++ (match u.query with | some q => "?" ++ q | none => ""))

theorem char_eq_of_toNat_eq {a b : Char} (h : a.toNat = b.toNat) : a = b := by
  have h2 := congrArg Char.ofNat h
  rwa [Char.ofNat_toNat, Char.ofNat_toNat] at h2

theorem mkPort_not_default (scheme : String) (l : List Char) (port : Option Nat)
    (h : mkPort scheme l = some port) :
    ∀ p, port = some p → defaultPort scheme ≠ some p := by
  unfold mkPort at h
  split at h
  · cases h
    intro p hp
    cases hp
  · split at h
    · cases h
      intro p hp
      cases hp
    · split at h
      · split at h
        · cases h
        · split at h
          · cases h
            intro p hp
            cases hp
          · rename_i hnd
            cases h
            intro p hp
            cases hp
            exact hnd
      · cases h

/-- Chars of a lowercased char list are not upper-case ASCII. -/
theorem mem_lowered_not_upper (l : List Char) (c : Char)
    (hc : c ∈ (l.map Char.toLower).asString.data) :
    ¬(65 ≤ c.toNat ∧ c.toNat ≤ 90) := by
  rw [show (l.map Char.toLower).asString.data = l.map Char.toLower from rfl] at hc
  obtain ⟨c0, _, rfl⟩ := List.mem_map.mp hc
  exact toLower_not_upper c0

/-- Chars of `mkHost hostport` (besides being lowercase) cannot be the
delimiters `/`, `?`, `#`, `:` unless `hostport` contained them before the
first `:` — which cannot happen when `hostport` came from the authority
slice. -/
theorem mem_mkHost (hostport : List Char) (c : Char) (hc : c ∈ (mkHost hostport).data) :
    ∃ c0, c0 ∈ hostport.takeWhile (fun c => c != ':') ∧ Char.toLower c0 = c := by
  rw [show (mkHost hostport).data =
      (hostport.takeWhile (fun c => c != ':')).map Char.toLower from rfl] at hc
  obtain ⟨c0, hm, rfl⟩ := List.mem_map.mp hc
  exact ⟨c0, hm, rfl⟩

theorem mem_takeWhile_pred {α : Type} (p : α → Bool) (l : List α) (a : α)
    (h : a ∈ l.takeWhile p) : p a = true := List.mem_takeWhile_imp h

theorem parseUrl_shape (s : String) (u : UrlModel) (h : parseUrl s = some u) :
    ∃ schemeCs hostport,
      u.scheme = mkScheme schemeCs ∧ u.host = mkHost hostport ∧
      (∀ c0 ∈ hostport, (c0 != '/' && c0 != '?' && c0 != '#') = true) ∧
      (∀ p, u.port = some p → defaultPort u.scheme ≠ some p) := by
  unfold parseUrl at h
  simp only [] at h
  split at h
  case h_2 => cases h
  case h_1 r hr =>
    split at h
    · cases h
    · split at h
      · cases h
      · split at h
        · cases h
        · rename_i hp
          split at h
          · cases h
          · rename_i port hport
            cases h
            refine ⟨_, _, rfl, rfl, ?_, ?_⟩
            · intro c0 hc0
              have hmem : c0 ∈ r.takeWhile (fun c => c != '/' && c != '?' && c != '#') := by
                have h1 := (List.takeWhile_prefix
                  (fun c => c != '@')).subset (List.mem_reverse.mp hc0)
                exact List.mem_reverse.mp h1
              exact mem_takeWhile_pred (fun c => c != '/' && c != '?' && c != '#') r c0 hmem
            · exact mkPort_not_default _ _ _ hport

/-- Claim C9 as stated is false at its own example: `url::Url::parse`
normalizes away a port equal to the scheme default, so
`get_base_url "https://example.com:443/x"` is `https://example.com`,
which does not end in `:443` although the source URL carries an explicit
port. -/
theorem c9_default_port_counterexample :
    get_base_url "https://example.com:443/x" = some "https://example.com" ∧
    (":443".data).isSuffixOf ("https://example.com".data) = false := by
  constructor
  · rfl
  · rfl

/-- Claim C9, amended: the derived provider base URL is canonical —
lowercase scheme and host, no path, query, or fragment (the host contains
no `/`, `?`, `#` or `:` characters; the base is exactly
`scheme://host[:port]`) — and an explicit port is included iff a
NON-DEFAULT port is present in the source URL: the parser drops a port
equal to the scheme default (`https://example.com:443/x` yields
`https://example.com`), while a non-default port is kept
(`https://example.com:8443/x` yields a base ending in `:8443`). -/
theorem c9_base_url_canonical (s : String) (u : UrlModel) (h : parseUrl s = some u) :
    get_base_url s = some (baseUrlString u) ∧
    (∀ c ∈ u.scheme.data, ¬(65 ≤ c.toNat ∧ c.toNat ≤ 90)) ∧
    (∀ c ∈ u.host.data,
      ¬(65 ≤ c.toNat ∧ c.toNat ≤ 90) ∧ c ≠ '/' ∧ c ≠ '?' ∧ c ≠ '#' ∧ c ≠ ':') ∧
    (∀ p, u.port = some p → defaultPort u.scheme ≠ some p) ∧
    get_base_url "https://example.com:8443/x" = some "https://example.com:8443" ∧
    get_base_url "https://example.com:443/x" = some "https://example.com" := by
  obtain ⟨schemeCs, hostport, hscheme, hhost, hauth, hport⟩ := parseUrl_shape s u h
  refine ⟨?_, ?_, ?_, hport, rfl, rfl⟩
  · rw [get_base_url, h]
    rfl
  · intro c hc
    rw [hscheme] at hc
    exact mem_lowered_not_upper schemeCs c hc
  · intro c hc
    rw [hhost] at hc
    obtain ⟨c0, hc0, rfl⟩ := mem_mkHost hostport c hc
    have hnu := toLower_not_upper c0
    have hcolon : (c0 != ':') = true := mem_takeWhile_pred (fun c => c != ':') hostport c0 hc0
    have hmem : c0 ∈ hostport := (List.takeWhile_prefix _).subset hc0
    have hdelim := hauth c0 hmem
    simp only [Bool.and_eq_true, bne_iff_ne, ne_eq] at hdelim hcolon
    refine ⟨hnu, ?_, ?_, ?_, ?_⟩
    · intro he
      exact hdelim.1.1 (char_eq_of_toNat_eq (toLower_toNat_eq_low c0 47 (by omega)
        (by rw [he]; rfl)))
    · intro he
      exact hdelim.1.2 (char_eq_of_toNat_eq (toLower_toNat_eq_low c0 63 (by omega)
        (by rw [he]; rfl)))
    · intro he
      exact hdelim.2 (char_eq_of_toNat_eq (toLower_toNat_eq_low c0 35 (by omega)
        (by rw [he]; rfl)))
    · intro he
      exact hcolon (char_eq_of_toNat_eq (toLower_toNat_eq_low c0 58 (by omega)
        (by rw [he]; rfl)))

/-- Witness for C9 (amended), at a URL with a non-default explicit port. -/
theorem c9_base_url_canonical_witness :
    get_base_url "https://example.com:8443/x" = some (baseUrlString
      { scheme := "https", host := "example.com", port := some 8443, path := "/x",
        query := none, fragment := none }) :=
  (c9_base_url_canonical "https://example.com:8443/x"
    { scheme := "https", host := "example.com", port := some 8443, path := "/x",
      query := none, fragment := none } (by rfl)).1

/-! ## Form-data assembly (src/src/utils/mod.rs
`parse_form_data_to_array`, src/src/formdata.rs `FormDataStreamer`)

A `FormData` value is a sequence of parts: string fields, or blobs with a
name, an optional filename and a content type. Blob bytes are
materialized lists; the streamer's `f64` read indices are `Int` (exact
for these magnitudes). -/

def STREAM_CHUNK_SIZE : Nat := 1048576

def normalize_linefeeds (value : String) : String :=
  (value.replace "\r\n" "\n").replace "\r" "\n"

def escape (str : String) : String :=
  ((str.replace "\n" "%0A").replace "\r" "%0D").replace "\"" "%22"

inductive FormPart where
  | field (name value : String)
  | blob (name filename contentType : String) (content : Bytes)

/-- The bytes one part contributes in the in-memory assembler. -/
def formPartBytes (boundary : String) (p : FormPart) : Bytes :=
  let partStart := "--" ++ boundary ++ "\r\nContent-Disposition: form-data"
  match p with
  | .field name value =>
      strBytes (partStart ++ "; name=\"" ++ escape (normalize_linefeeds name) ++
        "\"\r\n\r\n" ++ normalize_linefeeds value ++ "\r\n")
  | .blob name filename contentType content =>
      strBytes (partStart ++ "; name=\"" ++ escape (normalize_linefeeds name) ++ "\"" ++
        (if filename ≠ "" then "; filename=\"" ++ escape filename ++ "\"\r\n" else "\r\n") ++
        "Content-Type: " ++ contentType ++ "\r\n\r\n") ++ content ++ strBytes "\r\n"

/-- In-memory assembler `parse_form_data_to_array` (src/src/utils/mod.rs
lines 352-428): per-part chunks followed by the `--boundary--`
terminator. -/
def parse_form_data_to_array (parts : List FormPart) (boundary : String) : Bytes :=
  (parts.map (formPartBytes boundary)).flatten ++ strBytes ("--" ++ boundary ++ "--")

/-- `can_stream` (src/src/formdata.rs lines 176-190): some blob strictly
exceeds `STREAM_CHUNK_SIZE`. -/
def can_stream (parts : List FormPart) : Bool :=
  parts.any (fun p => match p with
    | .blob _ _ _ content => decide (content.length > STREAM_CHUNK_SIZE)
    | .field _ _ => false)

/-- A deferred file held by `FormDataStreamer` (`File` in
src/src/formdata.rs): `read_idx` is `-1` until the first slice. -/
structure FileSt where
  key : String
  filename : String
  contentType : String
  content : Bytes
  read_idx : Int

/-- The immediate prefix `FormDataStreamer::new` assembles out of the
string fields (in entry order). -/
def streamerFields (boundary : String) : List FormPart → Bytes
  | [] => []
  | .field n v :: rest => formPartBytes boundary (.field n v) ++ streamerFields boundary rest
  | .blob _ _ _ _ :: rest => streamerFields boundary rest

/-- The deferred files `FormDataStreamer::new` queues (in entry order). -/
def streamerFiles : List FormPart → List FileSt
  | [] => []
  | .field _ _ :: rest => streamerFiles rest
  | .blob n f ct content :: rest =>
      { key := n, filename := f, contentType := ct, content := content,
        read_idx := -1 } :: streamerFiles rest

/-- `calculate_indices` (src/src/formdata.rs lines 162-174): resets a
fresh `read_idx` of `-1` to `0` IN PLACE (the returned third component is
the updated `read_idx`), then clamps the slice end to
`start + STREAM_CHUNK_SIZE`. -/
def calculate_indices (size : Int) (read_idx : Int) : Int × Int × Int :=
  let start := if read_idx = -1 then 0 else read_idx
  let sliceEnd := start + (STREAM_CHUNK_SIZE : Int)
  let e := if sliceEnd < size then sliceEnd else size
  (start, e, start)

/-- The per-file header `stream` would interleave before a file's first
chunk. -/
def mkFileHeader (boundary : String) (f : FileSt) : String :=
  "--" ++ boundary ++ "\r\nContent-Disposition: form-data" ++ "; name=\"" ++
    escape (normalize_linefeeds f.key) ++ "\"" ++
    (if f.filename ≠ "" then "; filename=\"" ++ escape f.filename ++ "\"\r\n" else "\r\n") ++
    "Content-Type: " ++ f.contentType ++ "\r\n\r\n"

/-- What one call to `FormDataStreamer::stream` emits: the (possibly
empty) header, the slice indices it passed to `Blob::slice`, the slice
bytes, and the (possibly empty) suffix. -/
structure StepOut where
  header : String
  start : Int
  fin : Int
  chunk : Bytes
  suffix : String
  deriving DecidableEq, Repr

/-- `FormDataStreamer::stream` (src/src/formdata.rs lines 113-159): note
that the header condition `file.read_idx == -1.0` is tested AFTER
`calculate_indices` has already overwritten `read_idx` with `start`, that
the index then advances to `end - 1`, and that the `--boundary--` suffix
is appended after EVERY file's last chunk. -/
def streamStep (boundary : String) : List FileSt → Option (StepOut × List FileSt)
  | [] => none
  | f :: rest =>
      let size : Int := f.content.length
      let r := calculate_indices size f.read_idx
      let header := if r.2.2 = -1 then mkFileHeader boundary f else ""
      let chunk := (f.content.drop r.1.toNat).take (r.2.1 - r.1).toNat
      if r.2.1 = size then
        some ({ header := header, start := r.1, fin := r.2.1, chunk := chunk,
                suffix := "\r\n--" ++ boundary ++ "--" }, rest)
      else
        some ({ header := header, start := r.1, fin := r.2.1, chunk := chunk,
                suffix := "" }, { f with read_idx := r.2.1 - 1 } :: rest)

/-- Drives `stream` until it returns `None` (or fuel runs out), returning
the emitted steps and the remaining queue. -/
def streamAll (boundary : String) : Nat → List FileSt → List StepOut × List FileSt
  | 0, files => ([], files)
  | fuel + 1, files =>
      match streamStep boundary files with
      | none => ([], files)
      | some (st, files1) =>
          let r := streamAll boundary fuel files1
          (st :: r.1, r.2)

/-- Streaming-mode complete output: the immediate prefix followed by the
concatenation of all yielded chunks. -/
def streamOutputBytes (prefixBytes : Bytes) (steps : List StepOut) : Bytes :=
  prefixBytes ++ (steps.map (fun st => strBytes st.header ++ st.chunk ++
    strBytes st.suffix)).flatten

/-- The single large blob (2^20 + 1 bytes of `a`) that forces streaming
mode. -/
def demoContent : Bytes := List.replicate 1048577 97

def demoParts : List FormPart := [.blob "file" "a.txt" "text/plain" demoContent]

def demoFile : FileSt :=
  { key := "file", filename := "a.txt", contentType := "text/plain",
    content := demoContent, read_idx := -1 }

def demoStep1 : StepOut :=
  { header := "", start := 0, fin := 1048576,
    chunk := List.replicate 1048576 97, suffix := "" }

def demoStep2 : StepOut :=
  { header := "", start := 1048575, fin := 1048577,
    chunk := List.replicate 2 97, suffix := "\r\n--B--" }

theorem demoStreamStep1 :
    streamStep "B" [demoFile] =
      some (demoStep1, [{ demoFile with read_idx := 1048575 }]) := by
  simp only [streamStep, calculate_indices, demoFile, demoContent, demoStep1,
    List.length_replicate, STREAM_CHUNK_SIZE]
  norm_num
  rfl

theorem demoStreamStep2 :
    streamStep "B" [{ demoFile with read_idx := 1048575 }] = some (demoStep2, []) := by
  simp only [streamStep, calculate_indices, demoFile, demoContent, demoStep2,
    List.length_replicate, STREAM_CHUNK_SIZE]
  norm_num
  exact ⟨rfl, rfl⟩

theorem streamAll_succ (b : String) (n : Nat) (files : List FileSt) :
    streamAll b (n + 1) files =
      match streamStep b files with
      | none => ([], files)
      | some (st, files1) =>
          let r := streamAll b n files1
          (st :: r.1, r.2) := rfl

theorem demoStreamAll :
    streamAll "B" 3 (streamerFiles demoParts) = ([demoStep1, demoStep2], []) := by
  have hA : streamAll "B" 3 [demoFile] =
      (demoStep1 :: (streamAll "B" 2 [{ demoFile with read_idx := 1048575 }]).1,
        (streamAll "B" 2 [{ demoFile with read_idx := 1048575 }]).2) := by
    rewrite [show (3 : Nat) = 2 + 1 from rfl, streamAll_succ, demoStreamStep1]
    rfl
  have hB : streamAll "B" 2 [{ demoFile with read_idx := 1048575 }] =
      (demoStep2 :: (streamAll "B" 1 []).1, (streamAll "B" 1 []).2) := by
    rewrite [show (2 : Nat) = 1 + 1 from rfl, streamAll_succ, demoStreamStep2]
    rfl
  have hC : streamAll "B" 1 ([] : List FileSt) = ([], []) := rfl
  rw [show streamerFiles demoParts = [demoFile] from rfl, hA, hB, hC]

/-- Claim C6: evaluation of the streaming-mode assembler at a FormData
with a single 1 MiB + 1 byte blob (boundary `B`): streaming mode is
selected, yet the complete output (prefix plus all chunks) contains ZERO
`Content-Disposition` headers for its one part — the per-file header is
dead code because `calculate_indices` resets `read_idx` before the
`== -1` check — so the claimed "exactly one Content-Disposition per part"
fails on the code. -/
theorem c6_streaming_missing_content_disposition :
    can_stream demoParts = true ∧
    countOccs (strBytes "Content-Disposition")
      (streamOutputBytes (streamerFields "B" demoParts)
        (streamAll "B" 3 (streamerFiles demoParts)).1) = 0 ∧
    demoParts.length = 1 := by
  refine ⟨?_, ?_, rfl⟩
  · have hlen : demoContent.length = 1048577 := by
      rw [show demoContent = List.replicate 1048577 97 from rfl, List.length_replicate]
    simp only [can_stream, demoParts, List.any_cons, List.any_nil, Bool.or_false]
    rw [hlen]
    decide
  · rw [demoStreamAll]
    rw [show streamerFields "B" demoParts = [] from rfl]
    simp only [streamOutputBytes, List.map_cons, List.map_nil, List.flatten_cons,
      List.flatten_nil, List.append_nil, List.nil_append, demoStep1, demoStep2,
      show strBytes "" = [] from rfl, List.append_assoc]
    rw [show strBytes "Content-Disposition" = 67 :: strBytes "ontent-Disposition" from rfl]
    rw [countOccs_replicate_append 67 _ 97 (by decide),
      countOccs_replicate_append 67 _ 97 (by decide)]
    decide

/-- Claim C7: evaluation of the streaming chunk sequence at the same
single-blob FormData: the sequence is finite and every chunk is at most
1 MiB, but no per-file header is ever emitted (both headers are empty),
and consecutive slices overlap by one byte (`read_idx` advances to
`end - 1`): the second chunk starts at 1048575 while the first ends at
1048576, so the concatenated payload has 1048578 bytes for a 1048577-byte
blob — the blob bytes are not read exactly once. -/
theorem c7_streaming_overlap_failing_eval :
    can_stream demoParts = true ∧
    (streamAll "B" 3 (streamerFiles demoParts)).2 = [] ∧
    ((streamAll "B" 3 (streamerFiles demoParts)).1).map
        (fun st => (st.header, st.start, st.fin, st.suffix)) =
      [("", 0, 1048576, ""), ("", 1048575, 1048577, "\r\n--B--")] ∧
    (((streamAll "B" 3 (streamerFiles demoParts)).1).map
        (fun st => st.chunk.length)).sum = 1048578 ∧
    demoContent.length = 1048577 := by
  refine ⟨?_, ?_, ?_, ?_, ?_⟩
  · have hlen : demoContent.length = 1048577 := by
      rw [show demoContent = List.replicate 1048577 97 from rfl, List.length_replicate]
    simp only [can_stream, demoParts, List.any_cons, List.any_nil, Bool.or_false]
    rw [hlen]
    decide
  · rw [demoStreamAll]
  · rw [demoStreamAll]
    rfl
  · rw [demoStreamAll]
    simp only [List.map_cons, List.map_nil,
      show demoStep1.chunk = List.replicate 1048576 97 from rfl,
      show demoStep2.chunk = List.replicate 2 97 from rfl,
      List.length_replicate]
    decide
  · rw [show demoContent = List.replicate 1048577 97 from rfl, List.length_replicate]

/-! ## Request normalization (src/src/types/request.rs,
src/src/utils/mod.rs `parse_js_request_body`)

The caller-supplied JS body is one of the runtime shapes
`parse_js_request_body` dispatches on; streams and blobs arrive already
drained to bytes (the host stream reader is external). Rust `HashMap`
state (the URLSearchParams accumulator, the header map) is modelled as an
association list whose `insert` overwrites the value of an existing key in
place and appends a fresh key: this determines the map's CONTENTS exactly
(last write per key wins), but `HashMap::iter`'s order is unspecified and
insertion-independent, so wherever the code observes an iteration (the
query serialization in `from_request_options`) the model takes the order
as an explicit function parameter `hashIter`, assumed only to enumerate
exactly the map's entries (a permutation of the contents). -/

/-- `HashMap::insert`: overwrite in place or append. -/
def insertAssoc {β : Type} : List (String × β) → String → β → List (String × β)
  | [], k, v => [(k, v)]
  | (k0, v0) :: rest, k, v =>
      if k0 = k then (k, v) :: rest else (k0, v0) :: insertAssoc rest k v

/-- The runtime shapes accepted for a request body. -/
inductive JsBody where
  | jsString (s : String)
  | arrayBuffer (bytes : Bytes)
  | dataView (bytes : Bytes)
  | blob (content : Bytes)
  | file (content : Bytes)
  | urlSearchParams (entries : List (String × String))
  | formData (parts : List FormPart)
  | readableStream (content : Bytes)
  | otherObject (str : String)

/-- `L8BodyType` (src/src/types/request.rs lines 446-453). -/
inductive L8BodyType where
  | bytesB (b : Bytes)
  | streamB (content : Bytes)
  | paramsB (params : List (String × String))
  | formDataB (parts : List FormPart)
  | fileB (content : Bytes)

/-- `parse_js_request_body` (src/src/utils/mod.rs lines 183-285): strings
become UTF-8 bytes, ArrayBuffer/DataView raw bytes, Blob/File/
ReadableStream become streams (drained later), URLSearchParams entries are
accumulated into a HashMap (duplicate keys overwrite), FormData passes
through, other objects contribute their string representation. The
`File` variant of `L8BodyType` is never produced (dead code). -/
def parse_js_request_body : JsBody → L8BodyType
  | .jsString s => .bytesB (strBytes s)
  | .arrayBuffer b => .bytesB b
  | .dataView b => .bytesB b
  | .blob c => .streamB c
  | .file c => .streamB c
  | .urlSearchParams entries =>
      .paramsB (entries.foldl (fun m kv => insertAssoc m kv.1 kv.2) [])
  | .formData parts => .formDataB parts
  | .readableStream c => .streamB c
  | .otherObject s => .bytesB (strBytes s)

inductive L8RequestMode where
  | SameOrigin
  | NoCors
  | Cors
  | Navigate
  deriving DecidableEq, Repr

/-- The options bag (`web_sys::RequestInit` plus the extra properties
`add_properties` reads through `Reflect::get`). -/
structure RequestInitModel where
  method : Option String
  body : Option JsBody
  headers : Option (List (String × Json))
  cache : Option String
  credentials : Option String
  destination : Option String
  integrity : Option String
  isHistoryNavigation : Option Bool
  keepalive : Option Bool
  mode : Option L8RequestMode
  redirect : Option String
  referrerPolicy : Option String
  referrer : Option String
  signalPresent : Bool

/-- `L8RequestObject` (src/src/types/request.rs lines 14-42); `signal`
reduced to its presence. -/
structure L8RequestObject where
  uri : String
  method : String
  headers : List (String × Json)
  body : Bytes
  body_used : Bool
  cache : String
  credentials : String
  destination : String
  integrity : String
  is_history_navigation : Bool
  keep_alive : Option Bool
  mode : Option L8RequestMode
  redirect : Option String
  signalPresent : Bool

/-- `Default::default()` for `L8RequestObject`. -/
def defaultL8Request : L8RequestObject :=
  { uri := "", method := "", headers := [], body := [], body_used := false,
    cache := "", credentials := "", destination := "", integrity := "",
    is_history_navigation := false, keep_alive := none, mode := none,
    redirect := none, signalPresent := false }

/-- Rust `s.trim().to_uppercase()` (ASCII; methods are ASCII tokens). -/
def rustTrimUpper (s : String) : String := (s.trim.data.map Char.toUpper).asString

/-- `add_properties` (src/src/types/request.rs lines 348-443): mirrors the
option-bag properties with their documented defaults, forces `mode` to
Cors when absent or unknown, always sets `redirect` (defaulting the value
to `follow`), and inserts the `Referrer-Policy`/`Referrer` headers. -/
def add_properties (req : L8RequestObject) (options : RequestInitModel) : L8RequestObject :=
  let rp := options.referrerPolicy.getD ""
  let headers1 :=
    if rp ≠ "" then insertAssoc req.headers "Referrer-Policy" (Json.str rp) else req.headers
  let headers2 :=
    if rp ≠ "no-referrer" then
      match options.referrer with
      | some r => insertAssoc headers1 "Referrer" (Json.str r)
      | none => headers1
    else headers1
  { req with
    body_used := false
    cache := options.cache.getD "default"
    credentials := options.credentials.getD "same-origin"
    destination := options.destination.getD ""
    integrity := options.integrity.getD ""
    is_history_navigation := options.isHistoryNavigation.getD false
    keep_alive := options.keepalive
    mode := some (options.mode.getD .Cors)
    redirect := some (options.redirect.getD "follow")
    signalPresent := options.signalPresent
    headers := headers2 }

/-- `from_request_options` (src/src/types/request.rs lines 80-163).
`boundary` stands for the fresh UUID generated for a FormData body;
`hashIter` stands for `HashMap::iter`'s unspecified enumeration order of
the URLSearchParams accumulator (the code joins `params.iter()` with `&`;
theorems assume only that `hashIter` permutes the map's entries). -/
def from_request_options (uri : String) (options : RequestInitModel)
    (boundary : String)
    (hashIter : List (String × String) → List (String × String)) : L8RequestObject :=
  let method := match options.method with
    | some v => rustTrimUpper v
    | none => "GET"
  let afterBody : L8RequestObject := match options.body with
    | none => { defaultL8Request with uri := uri, method := method }
    | some b =>
        match parse_js_request_body b with
        | .bytesB bytes => { defaultL8Request with uri := uri, method := method, body := bytes }
        | .streamB content =>
            { defaultL8Request with uri := uri, method := method, body := content }
        | .fileB content =>
            { defaultL8Request with uri := uri, method := method, body := content }
        | .paramsB params =>
            let query := String.intercalate "&"
              ((hashIter params).map (fun kv => kv.1 ++ "=" ++ kv.2))
            { defaultL8Request with uri := uri ++ "?" ++ query, method := method }
        | .formDataB parts =>
            { defaultL8Request with
              uri := uri,
              method := method,
              body := parse_form_data_to_array parts boundary,
              headers := [("Content-Type",
                Json.str ("multipart/form-data; boundary=" ++ boundary))] }
  let afterHeaders := match options.headers with
    | some hs =>
        { afterBody with
          headers := hs.foldl (fun m kv => insertAssoc m kv.1 kv.2) afterBody.headers }
    | none => afterBody
  add_properties afterHeaders options

/-- `web_sys::Request` as consumed by `from_web_sys_request_object`:
its URL, method, headers and (optionally present) body stream, already
drained to bytes. -/
structure WebRequest where
  url : String
  method : String
  headers : List (String × Json)
  body : Option Bytes

/-- `from_web_sys_request_object` (src/src/types/request.rs lines
165-187): method trimmed and uppercased, body drained from the Request's
stream, headers taken from the Request, mode forced to Cors; every other
field keeps its `Default::default()` value. -/
def from_web_sys_request_object (uri : String) (req : WebRequest) : L8RequestObject :=
  { defaultL8Request with
    uri := uri
    method := rustTrimUpper req.method
    body := req.body.getD []
    headers := req.headers
    mode := some .Cors }

/-- The `resource` argument of `fetch`. -/
inductive ResourceModel where
  | str (url : String)
  | urlObj (url : String)
  | request (r : WebRequest)

/-- `L8RequestObject::new` (src/src/types/request.rs lines 46-78): a
Request resource short-circuits to `from_web_sys_request_object` BEFORE
the options bag is even examined; otherwise absent options give a bare GET
and present options go through `from_request_options`. -/
def l8RequestNew (backendUrl : String) (resource : ResourceModel)
    (options : Option RequestInitModel) (boundary : String)
    (hashIter : List (String × String) → List (String × String)) :
    Option L8RequestObject :=
  match get_uri backendUrl with
  | none => none
  | some uri =>
      match resource with
      | .request r => some (from_web_sys_request_object uri r)
      | _ =>
          match options with
          | none => some { defaultL8Request with uri := uri, method := "GET" }
          | some opts => some (from_request_options uri opts boundary hashIter)

theorem insertAssoc_of_not_mem {β : Type} (l : List (String × β)) (k : String) (v : β)
    (h : k ∉ l.map Prod.fst) : insertAssoc l k v = l ++ [(k, v)] := by
  induction l with
  | nil => rfl
  | cons kv rest ih =>
    obtain ⟨k0, v0⟩ := kv
    simp only [List.map_cons, List.mem_cons] at h
    push_neg at h
    simp only [insertAssoc]
    rw [if_neg (fun he => h.1 he.symm), ih h.2]
    rfl

theorem foldl_insertAssoc_nodup {β : Type} (entries : List (String × β)) :
    ∀ acc : List (String × β), (acc.map Prod.fst ++ entries.map Prod.fst).Nodup →
    entries.foldl (fun m kv => insertAssoc m kv.1 kv.2) acc = acc ++ entries := by
  induction entries with
  | nil =>
    intro acc _
    simp
  | cons kv rest ih =>
    intro acc h
    obtain ⟨k, v⟩ := kv
    simp only [List.foldl_cons]
    obtain ⟨h1, h2, hdisj⟩ := List.nodup_append.mp h
    have hknotin : k ∉ acc.map Prod.fst := fun hk =>
      hdisj hk (by simp)
    rw [insertAssoc_of_not_mem acc k v hknotin]
    rw [ih (acc ++ [(k, v)]) (by simpa [List.append_assoc] using h)]
    simp

/-- An options bag carrying only a body. -/
def c8Options (entries : List (String × String)) : RequestInitModel :=
  { method := none, body := some (.urlSearchParams entries), headers := none,
    cache := none, credentials := none, destination := none, integrity := none,
    isHistoryNavigation := none, keepalive := none, mode := none, redirect := none,
    referrerPolicy := none, referrer := none, signalPresent := false }

/-- What `from_request_options` produces for a bare URLSearchParams body
whose accumulated map iterates as `qs`: the query joined by `&`, an empty
body, and the `add_properties` defaults. -/
def c8Result (uri0 : String) (qs : List (String × String)) : L8RequestObject :=
  { defaultL8Request with
    uri := uri0 ++ "?" ++ String.intercalate "&" (qs.map (fun kv => kv.1 ++ "=" ++ kv.2)),
    method := "GET",
    cache := "default",
    credentials := "same-origin",
    mode := some L8RequestMode.Cors,
    redirect := some "follow" }

theorem from_request_options_params (uri0 b : String) (entries : List (String × String))
    (it : List (String × String) → List (String × String)) :
    from_request_options uri0 (c8Options entries) b it =
      c8Result uri0 (it (entries.foldl (fun m kv => insertAssoc m kv.1 kv.2) [])) := rfl

/-- A list permuting a two-element list is one of its two arrangements. -/
theorem perm_two {α : Type} {l : List α} {x y : α} (h : l.Perm [x, y]) :
    l = [x, y] ∨ l = [y, x] := by
  have hlen : l.length = 2 := by simpa using h.length_eq
  rcases l with _ | ⟨a, _ | ⟨b, _ | ⟨c, t⟩⟩⟩
  · simp at hlen
  · simp at hlen
  · have ha : a ∈ [x, y] := h.mem_iff.mp (by simp)
    rcases (by simpa using ha : a = x ∨ a = y) with rfl | rfl
    · have hb : b = y := by
        have h3 : [b] = [y] := List.perm_singleton.mp ((List.perm_cons a).mp h)
        simpa using h3
      exact Or.inl (by rw [hb])
    · have hb : b = x := by
        have h3 : [b] = [x] :=
          List.perm_singleton.mp ((List.perm_cons a).mp (h.trans (List.Perm.swap a x [])))
        simpa using h3
      exact Or.inr (by rw [hb])
  · simp at hlen

/-- Claim C8 as stated is false for a URLSearchParams body with a repeated
key: `parse_js_request_body` accumulates the entries into a `HashMap`, so
`URLSearchParams("a=1&a=2")` keeps only `a=2` — the accumulated map has
the single entry `("a", "2")` (third conjunct), so EVERY iteration order
serializes it as `a=2`; the counterexample instantiates the order with
`id`, the unique enumeration of a one-entry map. The pair `a=1` does not
appear in the resulting URI even though the claim says each key=value pair
appears in the query. -/
theorem c8_duplicate_key_counterexample :
    (l8RequestNew "https://h/p" (.str "https://h/p")
        (some (c8Options [("a", "1"), ("a", "2")])) "B" id).map
      (fun r => (r.uri, r.body)) = some ("/p?a=2", ([] : Bytes)) ∧
    ¬ "a=1".data <:+: "/p?a=2".data ∧
    [("a", "1"), ("a", "2")].foldl (fun m kv => insertAssoc m kv.1 kv.2) [] =
      [("a", "2")] := by
  exact ⟨rfl, by decide, rfl⟩

/-- Claim C8, amended: for a URLSearchParams body whose keys are pairwise
distinct, the request body stays empty and the URI query is the key=value
pairs joined by `&`, each appearing exactly once, in the unspecified
`HashMap` iteration order (some permutation of the entries); in particular
`normalize("https://h/p", body = URLSearchParams("a=1&b=2"))` yields an
empty body and `uri = "/p?a=1&b=2"` or `"/p?b=2&a=1"` depending on that
order. When a key repeats, only its last value survives. -/
theorem c8_urlsearchparams_query (uri0 : String) (entries : List (String × String))
    (b : String) (it : List (String × String) → List (String × String))
    (hnodup : (entries.map Prod.fst).Nodup)
    (hit : (it entries).Perm entries) :
    ((from_request_options uri0 (c8Options entries) b it).body = [] ∧
      ∃ qs : List (String × String), qs.Perm entries ∧
        (from_request_options uri0 (c8Options entries) b it).uri =
          uri0 ++ "?" ++
            String.intercalate "&" (qs.map (fun kv => kv.1 ++ "=" ++ kv.2))) ∧
    (∀ it2 : List (String × String) → List (String × String),
      (it2 [("a", "1"), ("b", "2")]).Perm [("a", "1"), ("b", "2")] →
      (l8RequestNew "https://h/p" (.str "https://h/p")
          (some (c8Options [("a", "1"), ("b", "2")])) b it2).map
        (fun r => (r.uri, r.body, r.method)) = some ("/p?a=1&b=2", [], "GET") ∨
      (l8RequestNew "https://h/p" (.str "https://h/p")
          (some (c8Options [("a", "1"), ("b", "2")])) b it2).map
        (fun r => (r.uri, r.body, r.method)) = some ("/p?b=2&a=1", [], "GET")) := by
  have hparams : entries.foldl (fun m kv => insertAssoc m kv.1 kv.2) [] = entries :=
    by simpa using foldl_insertAssoc_nodup entries [] (by simpa using hnodup)
  constructor
  · rw [from_request_options_params, hparams]
    exact ⟨rfl, it entries, hit, rfl⟩
  · intro it2 hp
    have hu : l8RequestNew "https://h/p" (.str "https://h/p")
        (some (c8Options [("a", "1"), ("b", "2")])) b it2 =
        some (from_request_options "/p" (c8Options [("a", "1"), ("b", "2")]) b it2) := by
      unfold l8RequestNew
      rw [show get_uri "https://h/p" = some "/p" from rfl]
    have hacc : [("a", "1"), ("b", "2")].foldl (fun m kv => insertAssoc m kv.1 kv.2) [] =
        [("a", "1"), ("b", "2")] := rfl
    rcases perm_two hp with h | h
    · left
      rw [hu, from_request_options_params, hacc, h]
      rfl
    · right
      rw [hu, from_request_options_params, hacc, h]
      rfl

/-- Witness for C8 (amended) at the claim's own example, with the identity
iteration order (a legitimate enumeration of the two-entry map). -/
theorem c8_urlsearchparams_query_witness :
    ((from_request_options "/p" (c8Options [("a", "1"), ("b", "2")]) "B" id).body = [] ∧
      ∃ qs : List (String × String), qs.Perm [("a", "1"), ("b", "2")] ∧
        (from_request_options "/p" (c8Options [("a", "1"), ("b", "2")]) "B" id).uri =
          "/p" ++ "?" ++
            String.intercalate "&" (qs.map (fun kv => kv.1 ++ "=" ++ kv.2))) ∧
    ((l8RequestNew "https://h/p" (.str "https://h/p")
          (some (c8Options [("a", "1"), ("b", "2")])) "B" id).map
        (fun r => (r.uri, r.body, r.method)) = some ("/p?a=1&b=2", [], "GET") ∨
      (l8RequestNew "https://h/p" (.str "https://h/p")
          (some (c8Options [("a", "1"), ("b", "2")])) "B" id).map
        (fun r => (r.uri, r.body, r.method)) = some ("/p?b=2&a=1", [], "GET")) :=
  ⟨(c8_urlsearchparams_query "/p" [("a", "1"), ("b", "2")] "B" id (by decide)
      (List.Perm.refl _)).1,
    (c8_urlsearchparams_query "/p" [("a", "1"), ("b", "2")] "B" id (by decide)
      (List.Perm.refl _)).2 id (List.Perm.refl _)⟩

/-- Claim C10: when the fetch resource is a Request object, the resulting
L8Request is built solely from that Request — method trimmed and
uppercased, headers and body drained from the Request, mode forced to
Cors, all mirrored properties left at their defaults — and the
caller-supplied options bag (with its FormData boundary and HashMap
iteration order) has no effect at all: any two option bags yield identical
results. -/
theorem c10_request_resource_ignores_options (backendUrl : String) (r : WebRequest)
    (o1 o2 : Option RequestInitModel) (b1 b2 : String)
    (it1 it2 : List (String × String) → List (String × String)) :
    l8RequestNew backendUrl (.request r) o1 b1 it1 =
      l8RequestNew backendUrl (.request r) o2 b2 it2 ∧
    (∀ uri, get_uri backendUrl = some uri →
      l8RequestNew backendUrl (.request r) o1 b1 it1 =
        some { defaultL8Request with
               uri := uri,
               method := rustTrimUpper r.method,
               body := r.body.getD [],
               headers := r.headers,
               mode := some .Cors }) := by
  constructor
  · unfold l8RequestNew
    cases get_uri backendUrl <;> rfl
  · intro uri huri
    unfold l8RequestNew
    rw [huri]
    rfl

/-- Witness for C10: a concrete Request resource with a messy method and
a body, with and without an options bag. -/
theorem c10_request_resource_ignores_options_witness :
    l8RequestNew "https://h/p"
        (.request { url := "https://h/p", method := " post ",
                    headers := [("h", Json.str "v")], body := some [1, 2] })
        none "X" id =
      some { defaultL8Request with
             uri := "/p",
             method := rustTrimUpper " post ",
             body := [1, 2],
             headers := [("h", Json.str "v")],
             mode := some .Cors } ∧
    l8RequestNew "https://h/p"
        (.request { url := "https://h/p", method := " post ",
                    headers := [("h", Json.str "v")], body := some [1, 2] })
        none "X" id =
      l8RequestNew "https://h/p"
        (.request { url := "https://h/p", method := " post ",
                    headers := [("h", Json.str "v")], body := some [1, 2] })
        (some (c8Options [("a", "1")])) "Y" List.reverse :=
  ⟨(c10_request_resource_ignores_options "https://h/p"
      { url := "https://h/p", method := " post ",
        headers := [("h", Json.str "v")], body := some [1, 2] }
      none (some (c8Options [("a", "1")])) "X" "Y" id List.reverse).2 "/p" rfl,
    (c10_request_resource_ignores_options "https://h/p"
      { url := "https://h/p", method := " post ",
        headers := [("h", Json.str "v")], body := some [1, 2] }
      none (some (c8Options [("a", "1")])) "X" "Y" id List.reverse).1⟩

end Layer8
